import Mathlib

/-!
Shallow embedding of `sam_server_syphon.py` (SAM 2 server for TouchDesigner):
the `PromptState` store, the OSC command handlers, `process_frame_with_sam`,
and the coordinator main loop (frame acquisition, trigger decision, inference
invocation, cache reuse, publish, telemetry).

Python machine details embedded explicitly: `int()` truncates toward zero
(`pyInt`), `np.argmax` returns the first index of the maximum, lists are
value sequences, exceptions are `Except`.  The Syphon/OSC transports and the
SAM 2 predictor are opaque boundaries: frames are symbolic pixel buffers and
the predictor is an `Engine` record of fallible oracle functions, exactly the
calls the loop makes (`set_image`, `predict`), so that every claim about the
coordinator is decided by the embedded control flow, not by the model weights.
-/

/-- Working resolution width (`WIDTH = 1920` in the source). -/
def WIDTH : ℚ := 1920

/-- Working resolution height (`HEIGHT = 1080` in the source). -/
def HEIGHT : ℚ := 1080

/-- Python `int()` applied to a rational: truncation toward zero. -/
def pyInt (q : ℚ) : ℤ := q.num.tdiv q.den

/-- The prompt store (`class PromptState`).  The `threading.RLock` serializes
its methods; in the embedding each method is one atomic state transition. -/
structure PromptState where
  mode : String
  points : List (ℤ × ℤ)
  labels : List ℤ
  box : Option (ℤ × ℤ × ℤ × ℤ)
  needs_update : Bool
deriving DecidableEq, Repr

/-- Initial prompt state (`PromptState.__init__`). -/
def PromptState.init : PromptState :=
  { mode := "auto", points := [], labels := [], box := none, needs_update := false }

/-- `PromptState.clear`. -/
def PromptState.clear (s : PromptState) : PromptState :=
  { s with points := [], labels := [], box := none, needs_update := true }

/-- `PromptState.add_point` (no validation of `label` in the source). -/
def PromptState.add_point (s : PromptState) (x y label : ℤ) : PromptState :=
  { s with points := s.points ++ [(x, y)], labels := s.labels ++ [label],
           needs_update := true }

/-- `PromptState.set_box`. -/
def PromptState.set_box (s : PromptState) (x1 y1 x2 y2 : ℤ) : PromptState :=
  { s with box := some (x1, y1, x2, y2), needs_update := true }

/-- `PromptState.set_mode`: sets `mode`, calls `clear()`, sets the flag. -/
def PromptState.set_mode (s : PromptState) (mode : String) : PromptState :=
  { ({ s with mode := mode }).clear with needs_update := true }

/-- `PromptState.consume_update_flag`: returns the flag and resets it. -/
def PromptState.consume_update_flag (s : PromptState) : Bool × PromptState :=
  (s.needs_update, { s with needs_update := false })

/-- One operation on the prompt store, as issued by the OSC handlers and the
main loop. -/
inductive StoreOp where
  | clear : StoreOp
  | addPoint (x y label : ℤ) : StoreOp
  | setBox (x1 y1 x2 y2 : ℤ) : StoreOp
  | setMode (m : String) : StoreOp
  | consume : StoreOp
deriving DecidableEq, Repr

/-- Whether a store operation is a mutation (everything except `consume`). -/
def StoreOp.isMutation : StoreOp → Bool
  | .consume => false
  | _ => true

/-- Apply one store operation; `consume` also yields its returned Bool. -/
def applyStore : StoreOp → PromptState → PromptState × Option Bool
  | .clear, s => (s.clear, none)
  | .addPoint x y l, s => (s.add_point x y l, none)
  | .setBox a b c d, s => (s.set_box a b c d, none)
  | .setMode m, s => (s.set_mode m, none)
  | .consume, s =>
      let r := s.consume_update_flag
      (r.2, some r.1)

/-- Run a list of store operations, collecting the results of the `consume`
calls in order. -/
def runStore : List StoreOp → PromptState → PromptState × List Bool
  | [], s => (s, [])
  | op :: t, s =>
      let r := applyStore op s
      let rest := runStore t r.1
      (rest.1, (match r.2 with | some b => [b] | none => []) ++ rest.2)

/-- OSC handler `/sam/mode` (`handle_mode`). -/
def handle_mode (mode : String) (s : PromptState) : PromptState :=
  s.set_mode mode

/-- OSC handler `/sam/point` (`handle_point`): scales normalized coordinates
by the working resolution with Python `int()` and appends the point. -/
def handle_point (x y : ℚ) (label : ℤ) (s : PromptState) : PromptState :=
  s.add_point (pyInt (x * WIDTH)) (pyInt (y * HEIGHT)) label

/-- OSC handler `/sam/box` (`handle_box`): scales all four normalized
coordinates by the working resolution with Python `int()` and stores the box. -/
def handle_box (x1 y1 x2 y2 : ℚ) (s : PromptState) : PromptState :=
  s.set_box (pyInt (x1 * WIDTH)) (pyInt (y1 * HEIGHT))
            (pyInt (x2 * WIDTH)) (pyInt (y2 * HEIGHT))

/-- OSC handler `/sam/clear` (`handle_clear`). -/
def handle_clear (s : PromptState) : PromptState :=
  s.clear

/-- Symbolic pixel buffers.  `zeros h w c` is `np.zeros((h,w,c))`; `src n` is
the n-th frame delivered by the Syphon input (after the BGRA→RGB conversion
and flip); `pointOverlay`/`boxOverlay` are the composited mask visualizations
built by `process_frame_with_sam` (frame copy, translucent mask highlight and
prompt markers).  `frame.copy()` is value copy, hence the identity here. -/
inductive Frame where
  | zeros (h w c : ℕ) : Frame
  | src (n : ℕ) : Frame
  | pointOverlay (base : Frame) (mask : ℕ) (points : List (ℤ × ℤ))
      (labels : List ℤ) : Frame
  | boxOverlay (base : Frame) (mask : ℕ) (box : ℤ × ℤ × ℤ × ℤ) : Frame
deriving DecidableEq, Repr

/-- The placeholder `test_frame = np.zeros((HEIGHT, WIDTH, 3), dtype=np.uint8)`
used only before any real frame has arrived. -/
def test_frame : Frame := Frame.zeros 1080 1920 3

/-- One telemetry message on the OSC reverse channel: `/sam/masks/count`,
`/sam/mask/<i>/score`, `/sam/mask/<i>/area`. -/
inductive Telem where
  | maskCount (n : ℕ) : Telem
  | maskScore (idx : ℕ) (score : ℚ) : Telem
  | maskArea (idx : ℕ) (area : ℚ) : Telem
deriving DecidableEq, Repr

/-- The opaque SAM 2 predictor boundary: the calls `process_frame_with_sam`
makes, each fallible (a Python exception is `Except.error`).  `predict`
results are (mask identifier, score) pairs; `mask_sum` is `np.sum(mask)`,
the pixel count of a mask. -/
structure Engine where
  set_image : Frame → Except String Unit
  predict_points : Frame → List (ℤ × ℤ) → List ℤ → Except String (List (ℕ × ℚ))
  predict_box : Frame → ℤ × ℤ × ℤ × ℤ → Except String (List (ℕ × ℚ))
  mask_sum : ℕ → ℚ

/-- Tail of `np.argmax`: first index of the maximum, scanning left to right. -/
def argmaxAux (best : ℕ) (bestVal : ℚ) (i : ℕ) : List ℚ → ℕ
  | [] => best
  | x :: xs =>
      if bestVal < x then argmaxAux i x (i + 1) xs
      else argmaxAux best bestVal (i + 1) xs

/-- `np.argmax` on a list of scores (first index of the maximum; 0 on `[]`,
where NumPy would raise — the empty case never survives `List.get?` below). -/
def argmax : List ℚ → ℕ
  | [] => 0
  | x :: xs => argmaxAux 0 x 1 xs

/-- `process_frame_with_sam(predictor, frame, osc_client)`: snapshots the
prompt state under the lock, sets the image, branches on mode, and returns
the mask visualization together with the OSC messages it sends (each branch
sends its messages after all fallible steps, as in the source).  A raised
exception is `Except.error` and propagates to the caller. -/
def process_frame_with_sam (eng : Engine) (frame : Frame) (ps : PromptState) :
    Except String (Frame × List Telem) := do
  let mode := ps.mode
  let points := ps.points
  let labels := ps.labels
  let box := ps.box
  eng.set_image frame
  if mode = "auto" then
    pure (frame, [Telem.maskCount 0])
  else if mode = "point" ∧ points ≠ [] then do
    let results ← eng.predict_points frame points labels
    let i := argmax (results.map Prod.snd)
    match results.get? i with
    | none => Except.error "index out of range"
    | some best =>
        pure (Frame.pointOverlay frame best.1 points labels,
          [Telem.maskCount 1, Telem.maskScore 0 best.2,
           Telem.maskArea 0 (eng.mask_sum best.1 / (WIDTH * HEIGHT))])
  else if h : mode = "box" ∧ box.isSome then do
    let b := box.get h.2
    let results ← eng.predict_box frame b
    match results.get? 0 with
    | none => Except.error "index out of range"
    | some m0 =>
        pure (Frame.boxOverlay frame m0.1 b,
          [Telem.maskCount 1, Telem.maskScore 0 m0.2,
           Telem.maskArea 0 (eng.mask_sum m0.1 / (WIDTH * HEIGHT))])
  else
    pure (frame, [Telem.maskCount 0])

/-- Mutable state of the main loop across ticks: `frame_count`, the cached
`last_frame`, the cached `last_mask_viz`, and the shared prompt store. -/
structure LoopState where
  frame_count : ℕ
  last_frame : Option Frame
  last_mask_viz : Option Frame
  prompt : PromptState
deriving DecidableEq, Repr

/-- Loop state at entry to the `while running` loop. -/
def initLoopState : LoopState :=
  { frame_count := 0, last_frame := none, last_mask_viz := none,
    prompt := PromptState.init }

/-- Observable outcome of one loop tick: the frame published to the Syphon
output, the OSC telemetry sent, whether inference was invoked, and (ghost
instrumentation) the frame the tick processed. -/
structure TickOut where
  published : Frame
  telemetry : List Telem
  inferred : Bool
  acquired : Frame
deriving DecidableEq, Repr

/-- Frame acquisition part of the tick (source lines "Reuse last frame if no
new input"): a fresh frame is used and cached; on none the last good frame is
reused; the black `test_frame` only when no real frame ever arrived (and it is
not cached as a last frame). -/
def acquire_frame (input : Option Frame) (last : Option Frame) :
    Frame × Option Frame :=
  match input with
  | some f => (f, some f)
  | none =>
      match last with
      | some lf => (lf, some lf)
      | none => (test_frame, none)

/-- One iteration of the main loop body: acquire a frame, consume the update
flag, decide the trigger (`needs_update or frame_count % 30 == 0`), either run
`process_frame_with_sam` (caching its result on success, falling back to the
plain frame on exception without touching the cache) or reuse the cached
visualization, publish, and advance `frame_count`. -/
def loop_tick (eng : Engine) (input : Option Frame) (st : LoopState) :
    LoopState × TickOut :=
  let a := acquire_frame input st.last_frame
  let frame := a.1
  let c := st.prompt.consume_update_flag
  let needs_update := c.1
  let prompt' := c.2
  if needs_update || st.frame_count % 30 == 0 then
    match process_frame_with_sam eng frame prompt' with
    | Except.ok r =>
        ({ frame_count := st.frame_count + 1, last_frame := a.2,
           last_mask_viz := some r.1, prompt := prompt' },
         { published := r.1, telemetry := r.2, inferred := true,
           acquired := frame })
    | Except.error _ =>
        ({ frame_count := st.frame_count + 1, last_frame := a.2,
           last_mask_viz := st.last_mask_viz, prompt := prompt' },
         { published := frame, telemetry := [], inferred := true,
           acquired := frame })
  else
    ({ frame_count := st.frame_count + 1, last_frame := a.2,
       last_mask_viz := st.last_mask_viz, prompt := prompt' },
     { published := (match st.last_mask_viz with | some v => v | none => frame),
       telemetry := [], inferred := false, acquired := frame })

/-- Run the loop over a list of ticks.  Each tick first applies the store
mutations delivered by the OSC thread since the previous tick, then executes
the loop body on that tick's frame-source yield. -/
def run_loop (eng : Engine) (st : LoopState) :
    List (List StoreOp × Option Frame) → LoopState × List TickOut
  | [] => (st, [])
  | t :: rest =>
      let st1 := { st with prompt := (runStore t.1 st.prompt).1 }
      let r := loop_tick eng t.2 st1
      let tail := run_loop eng r.1 rest
      (tail.1, r.2 :: tail.2)

/-- Evolution of the `last_frame` cache over one tick: a delivered frame
replaces it, a missed tick leaves it unchanged. -/
def updLast (last : Option Frame) (o : Option Frame) : Option Frame :=
  match o with
  | some f => some f
  | none => last

/-- Most recent frame actually delivered by the frame source in a history of
per-tick yields (none when no frame was ever delivered). -/
def lastSome : List (Option Frame) → Option Frame :=
  List.foldl updLast none

/-- Engine oracle whose every call raises (a predictor that always fails). -/
def failEngine : Engine where
  set_image := fun _ => Except.error "engine failure"
  predict_points := fun _ _ _ => Except.error "engine failure"
  predict_box := fun _ _ => Except.error "engine failure"
  mask_sum := fun _ => 0

/-- Engine oracle that fails exactly on the source frame `Frame.src 1` and
succeeds elsewhere (used to exhibit a failing tick between good ones). -/
def flakyEngine : Engine where
  set_image := fun f => if f = Frame.src 1 then Except.error "engine failure"
    else Except.ok ()
  predict_points := fun _ _ _ => Except.ok [(0, 1/2)]
  predict_box := fun _ _ => Except.ok [(0, 1/2)]
  mask_sum := fun _ => 0

/-- Specification ghost: the `(point, label)` pairs that should be stored
after a trace — the `addPoint` arguments since the last `clear`/`setMode`,
in call order. -/
def expectedPairs : List StoreOp → List ((ℤ × ℤ) × ℤ) → List ((ℤ × ℤ) × ℤ)
  | [], acc => acc
  | .clear :: t, _ => expectedPairs t []
  | .addPoint x y l :: t, acc => expectedPairs t (acc ++ [((x, y), l)])
  | .setBox _ _ _ _ :: t, acc => expectedPairs t acc
  | .setMode _ :: t, _ => expectedPairs t []
  | .consume :: t, acc => expectedPairs t acc

/-- A concrete mid-run loop state: one tick done, frame `Frame.src 0` seen
and its (pass-through) visualization cached, prompt store untouched. -/
def cachedState : LoopState :=
  { frame_count := 1, last_frame := some (Frame.src 0),
    last_mask_viz := some (Frame.src 0), prompt := PromptState.init }

/-- A concrete loop state right after a failed tick 0: a frame was seen but
no visualization was ever cached. -/
def emptyCacheState : LoopState :=
  { frame_count := 1, last_frame := some (Frame.src 3),
    last_mask_viz := none, prompt := PromptState.init }

/-- A mutation operation returns no value and leaves the update flag set. -/
lemma applyStore_mut (op : StoreOp) (s : PromptState) (h : op.isMutation = true) :
    (applyStore op s).2 = none ∧ (applyStore op s).1.needs_update = true := by
  cases op <;>
    simp [applyStore, StoreOp.isMutation, PromptState.clear, PromptState.add_point,
      PromptState.set_box, PromptState.set_mode, PromptState.consume_update_flag] at h ⊢

/-- Running a concatenated trace runs the pieces in order. -/
lemma runStore_append (a b : List StoreOp) (s : PromptState) :
    runStore (a ++ b) s
      = ((runStore b (runStore a s).1).1,
         (runStore a s).2 ++ (runStore b (runStore a s).1).2) := by
  induction a generalizing s with
  | nil => simp [runStore]
  | cons op t ih =>
      simp only [List.cons_append, runStore, ih]
      cases (applyStore op s).2 <;> simp [ih]

/-- A nonempty all-mutation trace emits no consume results and leaves the
update flag set. -/
lemma runStore_mutations (ms : List StoreOp) (s : PromptState)
    (hm : ∀ op ∈ ms, op.isMutation = true) :
    (runStore ms s).2 = [] ∧ (ms ≠ [] → (runStore ms s).1.needs_update = true) := by
  induction ms generalizing s with
  | nil => simp [runStore]
  | cons op t ih =>
      have hop := applyStore_mut op s (hm op (by simp))
      have iht := ih (applyStore op s).1 (fun o ho => hm o (by simp [ho]))
      refine ⟨?_, fun _ => ?_⟩
      · simp [runStore, hop.1, iht.1]
      · cases t with
        | nil => simpa [runStore] using hop.2
        | cons o t2 => simpa [runStore] using iht.2 (by simp)

/-- From a clean flag, every `consume` in a row returns false. -/
lemma runStore_consumes (n : ℕ) (s : PromptState) (h : s.needs_update = false) :
    (runStore (List.replicate n StoreOp.consume) s).2 = List.replicate n false := by
  induction n generalizing s with
  | zero => simp [runStore]
  | succ k ih =>
      simp [List.replicate_succ, runStore, applyStore, PromptState.consume_update_flag, h,
        ih { s with needs_update := false } rfl]

/-- Python truncation agrees with the floor on nonnegative rationals. -/
lemma pyInt_eq_floor (q : ℚ) (h : 0 ≤ q) : pyInt q = ⌊q⌋ := by
  unfold pyInt
  rw [Rat.floor_def]
  exact Int.tdiv_eq_ediv (Rat.num_nonneg.mpr h) (Int.ofNat_nonneg q.den)

/-- Projections of one loop tick that do not depend on the engine outcome:
the counter increments, the prompt flag is consumed, the inference trigger is
exactly `needs_update or frame_count % 30 == 0`, the processed frame is the
acquired one, and the `last_frame` cache follows `updLast`. -/
lemma loop_tick_fields (eng : Engine) (input : Option Frame) (st : LoopState) :
    (loop_tick eng input st).1.frame_count = st.frame_count + 1
    ∧ (loop_tick eng input st).1.prompt = { st.prompt with needs_update := false }
    ∧ (loop_tick eng input st).2.inferred
        = (st.prompt.needs_update || st.frame_count % 30 == 0)
    ∧ (loop_tick eng input st).2.acquired = (acquire_frame input st.last_frame).1
    ∧ (loop_tick eng input st).1.last_frame = updLast st.last_frame input := by
  have hacq : (acquire_frame input st.last_frame).2 = updLast st.last_frame input := by
    cases input <;> cases h : st.last_frame <;> simp [acquire_frame, updLast, h]
  unfold loop_tick
  simp only [PromptState.consume_update_flag]
  split
  · split <;> simp_all
  · simp_all

/-- A non-triggered tick reuses the cached visualization verbatim and sends
no telemetry; the cache itself is unchanged. -/
lemma loop_tick_cache_reuse (eng : Engine) (input : Option Frame) (st : LoopState)
    (v : Frame) (hv : st.last_mask_viz = some v)
    (ht : (st.prompt.needs_update || st.frame_count % 30 == 0) = false) :
    (loop_tick eng input st).2.published = v
    ∧ (loop_tick eng input st).2.telemetry = []
    ∧ (loop_tick eng input st).2.inferred = false
    ∧ (loop_tick eng input st).1.last_mask_viz = some v := by
  unfold loop_tick
  simp [PromptState.consume_update_flag, ht, hv]

/-- A non-triggered tick, whatever the cache holds: it publishes the cached
visualization when one exists and the plain acquired frame otherwise, and
leaves the cache unchanged. -/
lemma loop_tick_no_trigger (eng : Engine) (input : Option Frame) (st : LoopState)
    (ht : (st.prompt.needs_update || st.frame_count % 30 == 0) = false) :
    (loop_tick eng input st).2.published
      = st.last_mask_viz.getD (acquire_frame input st.last_frame).1
    ∧ (loop_tick eng input st).2.telemetry = []
    ∧ (loop_tick eng input st).2.inferred = false
    ∧ (loop_tick eng input st).1.last_mask_viz = st.last_mask_viz := by
  cases hv : st.last_mask_viz <;>
    · unfold loop_tick
      simp [PromptState.consume_update_flag, ht, hv]

/-- A triggered tick on which `process_frame_with_sam` raises publishes the
plain acquired frame, sends nothing, and leaves the cached visualization
untouched. -/
lemma loop_tick_failure (eng : Engine) (input : Option Frame) (st : LoopState)
    (e : String)
    (ht : (st.prompt.needs_update || st.frame_count % 30 == 0) = true)
    (he : process_frame_with_sam eng (acquire_frame input st.last_frame).1
        { st.prompt with needs_update := false } = Except.error e) :
    (loop_tick eng input st).2.published = (acquire_frame input st.last_frame).1
    ∧ (loop_tick eng input st).2.telemetry = []
    ∧ (loop_tick eng input st).2.inferred = true
    ∧ (loop_tick eng input st).1.last_mask_viz = st.last_mask_viz := by
  unfold loop_tick
  simp [PromptState.consume_update_flag, ht, he]

/-- With no control messages, the trigger pattern over a whole run is purely
periodic in the counter, provided the run starts with the flag clean. -/
lemma run_loop_inferred (eng : Engine) (inputs : List (Option Frame))
    (st : LoopState) (h : st.prompt.needs_update = false) :
    ((run_loop eng st (inputs.map fun i => (([] : List StoreOp), i))).2).map
        (fun o => o.inferred)
      = (List.range' st.frame_count inputs.length).map (fun j => j % 30 == 0) := by
  induction inputs generalizing st with
  | nil => simp [run_loop]
  | cons i t ih =>
      have hf := loop_tick_fields eng i st
      have hst1 : ({ st with prompt := (runStore [] st.prompt).1 } : LoopState) = st := by
        simp [runStore]
      simp only [List.map_cons, run_loop, hst1, List.range'_succ, List.length_cons]
      have hnext := ih (loop_tick eng i st).1 (by rw [hf.2.1])
      rw [hnext, hf.1, hf.2.2.1, h]
      simp

/-- Over a whole run, the `last_frame` cache is the fold of `updLast` over the
per-tick frame-source yields. -/
lemma run_loop_last_frame (eng : Engine)
    (ticks : List (List StoreOp × Option Frame)) (st : LoopState) :
    (run_loop eng st ticks).1.last_frame
      = (ticks.map Prod.snd).foldl updLast st.last_frame := by
  induction ticks generalizing st with
  | nil => simp [run_loop]
  | cons tk t ih =>
      have hf := loop_tick_fields eng tk.2 { st with prompt := (runStore tk.1 st.prompt).1 }
      simp only [run_loop, List.map_cons, List.foldl_cons]
      rw [ih, hf.2.2.2.2]

/-- The fold computing the most recent delivered frame yields a member of the
history (or the seed). -/
lemma foldl_updLast_mem (l : List (Option Frame)) (acc : Option Frame) (f : Frame)
    (h : l.foldl updLast acc = some f) : some f ∈ l ∨ acc = some f := by
  induction l generalizing acc with
  | nil => exact Or.inr h
  | cons o t ih =>
      rcases ih (updLast acc o) h with hm | he
      · exact Or.inl (List.mem_cons_of_mem _ hm)
      · cases o with
        | some g => exact Or.inl (by simp_all [updLast])
        | none => exact Or.inr (by simpa [updLast] using he)

/-- Generalized alignment invariant: running any trace keeps `points` and
`labels` equal in length and keeps their zip equal to the ghost accumulation
of `addPoint` arguments since the last `clear`/`setMode`. -/
lemma runStore_zip (t : List StoreOp) (s : PromptState)
    (h : s.points.length = s.labels.length) :
    (runStore t s).1.points.zip (runStore t s).1.labels
        = expectedPairs t (s.points.zip s.labels)
    ∧ (runStore t s).1.points.length = (runStore t s).1.labels.length := by
  induction t generalizing s with
  | nil => exact ⟨rfl, h⟩
  | cons op tl ih =>
      cases op with
      | clear =>
          simpa [runStore, applyStore, expectedPairs, PromptState.clear] using
            ih (s.clear) (by simp [PromptState.clear])
      | addPoint x y l =>
          have hzip : (s.points ++ [(x, y)]).zip (s.labels ++ [l])
              = s.points.zip s.labels ++ [((x, y), l)] :=
            List.zip_append h
          have := ih (s.add_point x y l) (by simp [PromptState.add_point, h])
          simpa [runStore, applyStore, expectedPairs, PromptState.add_point, hzip]
            using this
      | setBox a b c d =>
          simpa [runStore, applyStore, expectedPairs, PromptState.set_box] using
            ih (s.set_box a b c d) (by simp [PromptState.set_box, h])
      | setMode m =>
          simpa [runStore, applyStore, expectedPairs, PromptState.set_mode,
            PromptState.clear] using
            ih (s.set_mode m) (by simp [PromptState.set_mode, PromptState.clear])
      | consume =>
          simpa [runStore, applyStore, expectedPairs,
            PromptState.consume_update_flag] using
            ih ({ s with needs_update := false }) (by simpa using h)

/-- Auxiliary for C9: a run of `addPoint` operations appends exactly its
arguments' coordinates to `points`, in call order. -/
lemma runStore_addPoints (ps : List (ℤ × ℤ × ℤ)) (s : PromptState) :
    (runStore (ps.map (fun p => StoreOp.addPoint p.1 p.2.1 p.2.2)) s).1.points
      = s.points ++ ps.map (fun p => (p.1, p.2.1)) := by
  induction ps generalizing s with
  | nil => simp [runStore]
  | cons p t ih =>
      simp [runStore, applyStore, PromptState.add_point, ih]

/-- C3, counterexample: `addPoint` with label `2 ∉ {0,1}` does not fail — it
appends the point and label and sets the dirty flag, contradicting the
claimed `InvalidCommand` rejection. -/
theorem C3_counterexample :
    (PromptState.init.add_point 5 7 2)
      = { mode := "auto", points := [(5, 7)], labels := [2], box := none,
          needs_update := true } := rfl

/-- C3, amended: for every label value (validated or not), `addPoint` appends
the point to `points`, the label to `labels`, and sets the dirty flag; the
source performs no label validation and never raises `InvalidCommand`. -/
theorem C3_add_point_unvalidated (s : PromptState) (x y label : ℤ) :
    (s.add_point x y label).points = s.points ++ [(x, y)]
    ∧ (s.add_point x y label).labels = s.labels ++ [label]
    ∧ (s.add_point x y label).needs_update = true :=
  ⟨rfl, rfl, rfl⟩

/-- C4: after `setMode(m)`, in one atomic step, `points` is empty, `box` is
unset, `mode` is `m`, and the dirty flag is set, for every prior state. -/
theorem C4_set_mode_resets (s : PromptState) (m : String) :
    s.set_mode m
      = { mode := m, points := [], labels := [], box := none,
          needs_update := true } := rfl

/-- C5: after any nonempty batch of mutations, the first `consumeDirty` read
returns true and every further read returns false until the next mutation;
in particular two consecutive reads never both return true. -/
theorem C5_consume_dirty_once (s : PromptState) (ms : List StoreOp) (n : ℕ)
    (hm : ∀ op ∈ ms, op.isMutation = true) (hne : ms ≠ []) :
    (runStore (ms ++ StoreOp.consume :: List.replicate n StoreOp.consume) s).2
      = true :: List.replicate n false := by
  have h1 := runStore_mutations ms s hm
  rw [runStore_append, h1.1]
  simp [runStore, applyStore, PromptState.consume_update_flag, h1.2 hne]
  exact runStore_consumes n _ rfl

/-- C5 witness: one `clear` then three `consumeDirty` reads yield
`[true, false, false]`. -/
theorem C5_consume_dirty_once_witness :
    (∀ op ∈ [StoreOp.clear], op.isMutation = true)
    ∧ ([StoreOp.clear] ≠ [])
    ∧ (runStore ([StoreOp.clear]
          ++ StoreOp.consume :: List.replicate 2 StoreOp.consume)
        PromptState.init).2 = true :: List.replicate 2 false :=
  ⟨by decide, by decide,
   C5_consume_dirty_once PromptState.init [StoreOp.clear] 2 (by decide) (by decide)⟩

/-- C8: a `SetBox` command with normalized coordinates in `[0,1]` stores each
coordinate scaled by the fixed 1920×1080 working resolution and truncated to
an integer (truncation = floor on nonnegative values); in particular
`SetBox(0.1, 0.1, 0.5, 0.5)` stores `[192, 108, 960, 540]`. -/
theorem C8_box_scaling :
    (∀ (x1 y1 x2 y2 : ℚ) (s : PromptState),
        0 ≤ x1 → x1 ≤ 1 → 0 ≤ y1 → y1 ≤ 1 → 0 ≤ x2 → x2 ≤ 1 → 0 ≤ y2 → y2 ≤ 1 →
        (handle_box x1 y1 x2 y2 s).box
          = some (⌊x1 * WIDTH⌋, ⌊y1 * HEIGHT⌋, ⌊x2 * WIDTH⌋, ⌊y2 * HEIGHT⌋))
    ∧ (handle_box (1/10) (1/10) (1/2) (1/2) PromptState.init).box
        = some (192, 108, 960, 540) := by
  have hgen : ∀ (x1 y1 x2 y2 : ℚ) (s : PromptState),
      0 ≤ x1 → x1 ≤ 1 → 0 ≤ y1 → y1 ≤ 1 → 0 ≤ x2 → x2 ≤ 1 → 0 ≤ y2 → y2 ≤ 1 →
      (handle_box x1 y1 x2 y2 s).box
        = some (⌊x1 * WIDTH⌋, ⌊y1 * HEIGHT⌋, ⌊x2 * WIDTH⌋, ⌊y2 * HEIGHT⌋) := by
    intro x1 y1 x2 y2 s hx1 _ hy1 _ hx2 _ hy2 _
    have w0 : (0 : ℚ) ≤ WIDTH := by norm_num [WIDTH]
    have h0 : (0 : ℚ) ≤ HEIGHT := by norm_num [HEIGHT]
    simp only [handle_box, PromptState.set_box,
      pyInt_eq_floor _ (mul_nonneg hx1 w0), pyInt_eq_floor _ (mul_nonneg hy1 h0),
      pyInt_eq_floor _ (mul_nonneg hx2 w0), pyInt_eq_floor _ (mul_nonneg hy2 h0)]
  refine ⟨hgen, ?_⟩
  rw [hgen (1/10) (1/10) (1/2) (1/2) PromptState.init (by norm_num) (by norm_num)
    (by norm_num) (by norm_num) (by norm_num) (by norm_num) (by norm_num) (by norm_num)]
  norm_num [WIDTH, HEIGHT]

/-- C8 witness: the general scaling law applied at `(0.1, 0.1, 0.5, 0.5)`. -/
theorem C8_box_scaling_witness :
    ((0 : ℚ) ≤ 1/10 ∧ (1 : ℚ)/10 ≤ 1 ∧ (0 : ℚ) ≤ 1/2 ∧ (1 : ℚ)/2 ≤ 1)
    ∧ (handle_box (1/10) (1/10) (1/2) (1/2) PromptState.init).box
        = some (⌊(1 : ℚ)/10 * WIDTH⌋, ⌊(1 : ℚ)/10 * HEIGHT⌋,
                ⌊(1 : ℚ)/2 * WIDTH⌋, ⌊(1 : ℚ)/2 * HEIGHT⌋) :=
  ⟨⟨by norm_num, by norm_num, by norm_num, by norm_num⟩,
   C8_box_scaling.1 (1/10) (1/10) (1/2) (1/2) PromptState.init (by norm_num)
     (by norm_num) (by norm_num) (by norm_num) (by norm_num) (by norm_num)
     (by norm_num) (by norm_num)⟩

/-- C9, counterexample: one `addPoint` between two `consumeDirty` reads does
not leave exactly one point when a point already existed — the snapshot holds
the prior point as well, so its length is 2, not the claimed k = 1. -/
theorem C9_counterexample :
    (runStore [StoreOp.addPoint 1 2 1, StoreOp.consume, StoreOp.addPoint 3 4 1,
        StoreOp.consume] PromptState.init).1.points = [(1, 2), (3, 4)]
    ∧ (runStore [StoreOp.addPoint 1 2 1, StoreOp.consume, StoreOp.addPoint 3 4 1,
        StoreOp.consume] PromptState.init).1.points.length ≠ 1 := by
  exact ⟨rfl, by decide⟩

/-- C9, amended: k `addPoint` calls between two `consumeDirty` reads append
exactly those k points to the previously stored points, in call order (the
snapshot has exactly k elements only when the store held none before). -/
theorem C9_add_points_appended (s : PromptState) (ps : List (ℤ × ℤ × ℤ)) :
    (runStore (StoreOp.consume
        :: ps.map (fun p => StoreOp.addPoint p.1 p.2.1 p.2.2)
        ++ [StoreOp.consume]) s).1.points
      = s.points ++ ps.map (fun p => (p.1, p.2.1)) := by
  have step : (runStore (StoreOp.consume
      :: ps.map (fun p => StoreOp.addPoint p.1 p.2.1 p.2.2)
      ++ [StoreOp.consume]) s).1
      = (runStore (ps.map (fun p => StoreOp.addPoint p.1 p.2.1 p.2.2)
          ++ [StoreOp.consume]) { s with needs_update := false }).1 := rfl
  rw [step, runStore_append]
  simp [runStore, applyStore, PromptState.consume_update_flag, runStore_addPoints]

/-- C10: every store operation preserves the invariant that `points` and
`labels` have equal length, and over any trace from the initial state the
i-th label is exactly the label supplied with the i-th stored point. -/
theorem C10_points_labels_aligned :
    (∀ (op : StoreOp) (s : PromptState), s.points.length = s.labels.length →
        (applyStore op s).1.points.length = (applyStore op s).1.labels.length)
    ∧ ∀ t : List StoreOp,
        (runStore t PromptState.init).1.points.zip
            (runStore t PromptState.init).1.labels
          = expectedPairs t []
        ∧ (runStore t PromptState.init).1.points.length
          = (runStore t PromptState.init).1.labels.length := by
  constructor
  · intro op s h
    cases op <;> simp [applyStore, PromptState.clear, PromptState.add_point,
      PromptState.set_box, PromptState.set_mode, PromptState.consume_update_flag, h]
  · intro t
    simpa [PromptState.init] using runStore_zip t PromptState.init rfl

/-- C10 witness: the length invariant holds at the initial state and is
preserved by a concrete `addPoint`; the alignment holds for a concrete trace. -/
theorem C10_points_labels_aligned_witness :
    (PromptState.init.points.length = PromptState.init.labels.length)
    ∧ (applyStore (StoreOp.addPoint 1 2 1) PromptState.init).1.points.length
        = (applyStore (StoreOp.addPoint 1 2 1) PromptState.init).1.labels.length
    ∧ (runStore [StoreOp.addPoint 1 2 0] PromptState.init).1.points.zip
        (runStore [StoreOp.addPoint 1 2 0] PromptState.init).1.labels
      = expectedPairs [StoreOp.addPoint 1 2 0] [] :=
  ⟨rfl, C10_points_labels_aligned.1 (StoreOp.addPoint 1 2 1) PromptState.init rfl,
   (C10_points_labels_aligned.2 [StoreOp.addPoint 1 2 0]).1⟩

/-- C1, counterexample: on the very first tick (trigger: `0 % 30 == 0`) with
an engine whose call raises, the failure is caught and the published output
is the plain frame — but the tick's telemetry is empty: mask-count = 0 is
NOT reported, contradicting the claimed telemetry downgrade. -/
theorem C1_counterexample :
    (loop_tick failEngine (some (Frame.src 0)) initLoopState).2.inferred = true
    ∧ process_frame_with_sam failEngine (Frame.src 0)
        { PromptState.init with needs_update := false }
        = Except.error "engine failure"
    ∧ (loop_tick failEngine (some (Frame.src 0)) initLoopState).2.published
        = Frame.src 0
    ∧ (loop_tick failEngine (some (Frame.src 0)) initLoopState).2.telemetry = []
    ∧ Telem.maskCount 0
        ∉ (loop_tick failEngine (some (Frame.src 0)) initLoopState).2.telemetry :=
  ⟨rfl, rfl, rfl, rfl, by decide⟩

/-- C1, amended: on every triggered tick whose `process_frame_with_sam` call
raises, the failure is caught (the loop state stays well-defined), the
published output is a pass-through of the current frame, and NO telemetry is
sent on that tick (in particular mask-count = 0 is not reported). -/
theorem C1_engine_failure_passthrough (eng : Engine) (input : Option Frame)
    (st : LoopState) (e : String)
    (ht : (st.prompt.needs_update || st.frame_count % 30 == 0) = true)
    (he : process_frame_with_sam eng (acquire_frame input st.last_frame).1
        { st.prompt with needs_update := false } = Except.error e) :
    (loop_tick eng input st).2.published = (acquire_frame input st.last_frame).1
    ∧ (loop_tick eng input st).2.telemetry = []
    ∧ (loop_tick eng input st).2.inferred = true :=
  ⟨(loop_tick_failure eng input st e ht he).1,
   (loop_tick_failure eng input st e ht he).2.1,
   (loop_tick_failure eng input st e ht he).2.2.1⟩

/-- C1 witness: the amended behavior at a concrete failing tick. -/
theorem C1_engine_failure_passthrough_witness :
    ((initLoopState.prompt.needs_update || initLoopState.frame_count % 30 == 0)
        = true)
    ∧ process_frame_with_sam failEngine
        (acquire_frame (some (Frame.src 2)) initLoopState.last_frame).1
        { initLoopState.prompt with needs_update := false }
        = Except.error "engine failure"
    ∧ (loop_tick failEngine (some (Frame.src 2)) initLoopState).2.published
        = (acquire_frame (some (Frame.src 2)) initLoopState.last_frame).1
    ∧ (loop_tick failEngine (some (Frame.src 2)) initLoopState).2.telemetry = []
    ∧ (loop_tick failEngine (some (Frame.src 2)) initLoopState).2.inferred = true :=
  ⟨by decide, rfl,
   (C1_engine_failure_passthrough failEngine (some (Frame.src 2)) initLoopState
      "engine failure" (by decide) rfl).1,
   (C1_engine_failure_passthrough failEngine (some (Frame.src 2)) initLoopState
      "engine failure" (by decide) rfl).2.1,
   (C1_engine_failure_passthrough failEngine (some (Frame.src 2)) initLoopState
      "engine failure" (by decide) rfl).2.2⟩

/-- C2, counterexample: tick 0 succeeds and caches `Frame.src 0`; tick 1 is
triggered by a `clear` edit and its engine call fails, publishing the
pass-through `Frame.src 1`; yet the next non-triggered tick publishes the OLD
cached overlay `Frame.src 0`, not the tick-1 pass-through — the failure
result was never cached, contradicting the claim. -/
theorem C2_counterexample :
    (run_loop flakyEngine initLoopState
        [([], some (Frame.src 0)), ([StoreOp.clear], some (Frame.src 1)),
         ([], some (Frame.src 2))]).2
      = [{ published := Frame.src 0, telemetry := [Telem.maskCount 0],
           inferred := true, acquired := Frame.src 0 },
         { published := Frame.src 1, telemetry := [], inferred := true,
           acquired := Frame.src 1 },
         { published := Frame.src 0, telemetry := [], inferred := false,
           acquired := Frame.src 2 }]
    ∧ Frame.src 0 ≠ Frame.src 1 :=
  ⟨rfl, by decide⟩

/-- C2, amended: a failed triggered tick leaves the cached overlay exactly as
it was (the pass-through result is NOT cached), and every subsequent
non-triggered tick keeps publishing the previously cached overlay — or the
raw acquired frame when nothing was ever cached — with the cache unchanged. -/
theorem C2_failure_leaves_cache :
    (∀ (eng : Engine) (input : Option Frame) (st : LoopState) (e : String),
        (st.prompt.needs_update || st.frame_count % 30 == 0) = true →
        process_frame_with_sam eng (acquire_frame input st.last_frame).1
            { st.prompt with needs_update := false } = Except.error e →
        (loop_tick eng input st).1.last_mask_viz = st.last_mask_viz
        ∧ (loop_tick eng input st).2.published
            = (acquire_frame input st.last_frame).1)
    ∧ ∀ (eng : Engine) (input : Option Frame) (st : LoopState),
        (st.prompt.needs_update || st.frame_count % 30 == 0) = false →
        (loop_tick eng input st).2.published
          = st.last_mask_viz.getD (acquire_frame input st.last_frame).1
        ∧ (loop_tick eng input st).1.last_mask_viz = st.last_mask_viz :=
  ⟨fun eng input st e ht he =>
      ⟨(loop_tick_failure eng input st e ht he).2.2.2,
       (loop_tick_failure eng input st e ht he).1⟩,
   fun eng input st ht =>
      ⟨(loop_tick_no_trigger eng input st ht).1,
       (loop_tick_no_trigger eng input st ht).2.2.2⟩⟩

/-- C2 witness: a concrete failing tick leaves the (empty) cache empty; a
concrete non-triggered tick republishes a concrete cached overlay; and a
concrete non-triggered tick with an empty cache publishes the raw frame. -/
theorem C2_failure_leaves_cache_witness :
    ((initLoopState.prompt.needs_update || initLoopState.frame_count % 30 == 0)
        = true)
    ∧ (loop_tick failEngine (some (Frame.src 3)) initLoopState).1.last_mask_viz
        = initLoopState.last_mask_viz
    ∧ ((cachedState.prompt.needs_update || cachedState.frame_count % 30 == 0)
        = false)
    ∧ (loop_tick failEngine (some (Frame.src 3)) cachedState).2.published
        = cachedState.last_mask_viz.getD
            (acquire_frame (some (Frame.src 3)) cachedState.last_frame).1
    ∧ ((emptyCacheState.prompt.needs_update
          || emptyCacheState.frame_count % 30 == 0) = false)
    ∧ (loop_tick failEngine none emptyCacheState).2.published
        = emptyCacheState.last_mask_viz.getD
            (acquire_frame none emptyCacheState.last_frame).1 :=
  ⟨by decide,
   (C2_failure_leaves_cache.1 failEngine (some (Frame.src 3)) initLoopState
      "engine failure" (by decide) rfl).1,
   by decide,
   (C2_failure_leaves_cache.2 failEngine (some (Frame.src 3)) cachedState
      (by decide)).1,
   by decide,
   (C2_failure_leaves_cache.2 failEngine none emptyCacheState (by decide)).1⟩

/-- C6: on every tick, inference is invoked exactly when `consumeDirty` read
true or `frame_count % 30 == 0`; in a run with no edits the triggered ticks
are exactly 0, 30, 60, …; and every non-triggered tick publishes the cached
overlay (the last computed one) verbatim, with no telemetry. -/
theorem C6_trigger_policy :
    (∀ (eng : Engine) (input : Option Frame) (st : LoopState),
        (loop_tick eng input st).2.inferred
          = (st.prompt.needs_update || st.frame_count % 30 == 0))
    ∧ (∀ (eng : Engine) (inputs : List (Option Frame)),
        ((run_loop eng initLoopState
            (inputs.map fun i => (([] : List StoreOp), i))).2).map
            (fun o => o.inferred)
          = (List.range inputs.length).map (fun j => j % 30 == 0))
    ∧ ∀ (eng : Engine) (input : Option Frame) (st : LoopState) (v : Frame),
        st.last_mask_viz = some v →
        (st.prompt.needs_update || st.frame_count % 30 == 0) = false →
        (loop_tick eng input st).2.published = v
        ∧ (loop_tick eng input st).2.telemetry = []
        ∧ (loop_tick eng input st).2.inferred = false := by
  refine ⟨fun eng input st => (loop_tick_fields eng input st).2.2.1,
    fun eng inputs => ?_,
    fun eng input st v hv ht =>
      ⟨(loop_tick_cache_reuse eng input st v hv ht).1,
       (loop_tick_cache_reuse eng input st v hv ht).2.1,
       (loop_tick_cache_reuse eng input st v hv ht).2.2.1⟩⟩
  rw [List.range_eq_range']
  simpa [initLoopState] using run_loop_inferred eng inputs initLoopState rfl

/-- C6 witness: the trigger equation at a concrete tick; the 0,30,… pattern
over a concrete 31-tick editless run; cache reuse at a concrete
non-triggered tick. -/
theorem C6_trigger_policy_witness :
    ((loop_tick failEngine none initLoopState).2.inferred
        = (initLoopState.prompt.needs_update
            || initLoopState.frame_count % 30 == 0))
    ∧ (((run_loop failEngine initLoopState
          ((List.replicate 31 (none : Option Frame)).map
            fun i => (([] : List StoreOp), i))).2).map (fun o => o.inferred)
        = (List.range 31).map (fun j => j % 30 == 0))
    ∧ cachedState.last_mask_viz = some (Frame.src 0)
    ∧ (cachedState.prompt.needs_update || cachedState.frame_count % 30 == 0)
        = false
    ∧ (loop_tick failEngine none cachedState).2.published = Frame.src 0
    ∧ (loop_tick failEngine none cachedState).2.telemetry = [] :=
  ⟨C6_trigger_policy.1 failEngine none initLoopState,
   C6_trigger_policy.2.1 failEngine (List.replicate 31 none),
   rfl, by decide,
   (C6_trigger_policy.2.2 failEngine none cachedState (Frame.src 0) rfl
      (by decide)).1,
   (C6_trigger_policy.2.2 failEngine none cachedState (Frame.src 0) rfl
      (by decide)).2.1⟩

/-- C7: on a tick where the frame source yields none, after any history, the
loop processes the most recent delivered frame when one exists (the
placeholder only when no frame was ever delivered); and if every frame the
source ever delivered is a real source frame, the processed frame is that
last real frame verbatim and never the synthesized placeholder. -/
theorem C7_frame_freeze (eng : Engine)
    (ticks : List (List StoreOp × Option Frame)) :
    ((loop_tick eng none (run_loop eng initLoopState ticks).1).2.acquired
        = (lastSome (ticks.map Prod.snd)).getD test_frame)
    ∧ ∀ f : Frame,
        (∀ g : Frame, some g ∈ ticks.map Prod.snd → ∃ n, g = Frame.src n) →
        lastSome (ticks.map Prod.snd) = some f →
        (loop_tick eng none (run_loop eng initLoopState ticks).1).2.acquired = f
        ∧ (loop_tick eng none
            (run_loop eng initLoopState ticks).1).2.acquired ≠ test_frame := by
  have hlf : (run_loop eng initLoopState ticks).1.last_frame
      = lastSome (ticks.map Prod.snd) := by
    rw [run_loop_last_frame]
    rfl
  have hacq : (loop_tick eng none (run_loop eng initLoopState ticks).1).2.acquired
      = (lastSome (ticks.map Prod.snd)).getD test_frame := by
    rw [(loop_tick_fields eng none (run_loop eng initLoopState ticks).1).2.2.2.1,
      hlf]
    cases lastSome (ticks.map Prod.snd) <;> rfl
  refine ⟨hacq, fun f hsrc hlast => ?_⟩
  have hf : (loop_tick eng none (run_loop eng initLoopState ticks).1).2.acquired
      = f := by rw [hacq, hlast]; rfl
  refine ⟨hf, ?_⟩
  have hmem : some f ∈ ticks.map Prod.snd ∨ (none : Option Frame) = some f :=
    foldl_updLast_mem (ticks.map Prod.snd) none f hlast
  rcases hmem with hm | hnone
  · rcases hsrc f hm with ⟨n, rfl⟩
    rw [hf]
    simp [test_frame]
  · exact absurd hnone (by simp)

/-- C7 witness: after a history delivering `Frame.src 0` then a gap, the next
frameless tick processes `Frame.src 0`, not the placeholder. -/
theorem C7_frame_freeze_witness :
    (loop_tick failEngine none
        (run_loop failEngine initLoopState
          [([], some (Frame.src 0)), ([], none)]).1).2.acquired = Frame.src 0
    ∧ (loop_tick failEngine none
        (run_loop failEngine initLoopState
          [([], some (Frame.src 0)), ([], none)]).1).2.acquired ≠ test_frame :=
  (C7_frame_freeze failEngine [([], some (Frame.src 0)), ([], none)]).2
    (Frame.src 0)
    (by intro g hg; simp at hg; exact ⟨0, hg⟩)
    (by decide)
